import Mathlib

/-!
Verification of the student feedback system (`feedback_system.py`).

The Python module is shallowly embedded below.  Similarity scores are
modelled as rationals (the Python floats carry the values produced by the
external embedding model and `sklearn`'s `cosine_similarity`); the
embedding model together with the cosine-similarity computation is an
external collaborator and is modelled as an oracle supplying the pairwise
similarity values, plus a flag recording whether the embedding/similarity
step raises for the given inputs.  The real-valued mathematics of cosine
similarity itself is modelled separately (`cosineSim`) to relate the
oracle's values to genuine cosine similarities.
-/

namespace FeedbackSystem

/-- `class RewardType(Enum)`: the four reward tiers, in declaration order
BRONZE, SILVER, GOLD, PLATINUM. -/
inductive RewardType where
  | bronze
  | silver
  | gold
  | platinum
deriving DecidableEq, Repr, BEq

/-- `RewardType.value`: the string payload of each enum member. -/
def RewardType.value : RewardType → String
  | .bronze => "bronze"
  | .silver => "silver"
  | .gold => "gold"
  | .platinum => "platinum"

/-- `@dataclass StudentResponse`.  Timestamps are abstracted to integers
(counted in days).  `expected_keywords = []` models both Python `None` and
an empty list: the code only tests the field for truthiness, which is
false in both cases. -/
structure StudentResponse where
  student_id : String
  question_id : String
  response_text : String
  subject : String
  timestamp : Int
  expected_keywords : List String
deriving DecidableEq, Repr

/-- `@dataclass Feedback`. -/
structure Feedback where
  response_id : String
  student_id : String
  similarity_score : ℚ
  reward_type : RewardType
  feedback_text : String
  strengths : List String
  improvement_areas : List String
  personalized_tips : List String
  points_earned : ℕ
  timestamp : Int
deriving DecidableEq, Repr

/-- `@dataclass EducatorAlert`. -/
structure EducatorAlert where
  alert_id : String
  student_id : String
  alert_type : String
  severity : String
  description : String
  timestamp : Int
  action_required : Bool
deriving DecidableEq, Repr

/-- The per-tier entry of `_setup_reward_criteria`. -/
structure RewardCriteria where
  min_score : ℚ
  points : ℕ
  description : String
deriving DecidableEq, Repr

/-- 0.9 as a rational in reduced normal form.  (The constants below are
written with the raw `Rat` constructor so that the embedded functions
evaluate by kernel reduction; each comes with a lemma equating it to the
familiar fraction.) -/
def q0_9 : ℚ := ⟨9, 10, by decide, by decide⟩

/-- 0.8 as a rational in reduced normal form. -/
def q0_8 : ℚ := ⟨4, 5, by decide, by decide⟩

/-- 0.65 as a rational in reduced normal form. -/
def q0_65 : ℚ := ⟨13, 20, by decide, by decide⟩

/-- 0.6 as a rational in reduced normal form. -/
def q0_6 : ℚ := ⟨3, 5, by decide, by decide⟩

/-- 0.5 as a rational in reduced normal form. -/
def q0_5 : ℚ := ⟨1, 2, by decide, by decide⟩

/-- 0.4 as a rational in reduced normal form. -/
def q0_4 : ℚ := ⟨2, 5, by decide, by decide⟩

/-- 0.3 as a rational in reduced normal form. -/
def q0_3 : ℚ := ⟨3, 10, by decide, by decide⟩

/-- 0.2 as a rational in reduced normal form. -/
def q0_2 : ℚ := ⟨1, 5, by decide, by decide⟩

lemma q0_9_eq : q0_9 = 9/10 := by
  rw [q0_9, Rat.mk'_eq_divInt, Rat.divInt_eq_div]; norm_num

lemma q0_8_eq : q0_8 = 8/10 := by
  rw [q0_8, Rat.mk'_eq_divInt, Rat.divInt_eq_div]; norm_num

lemma q0_65_eq : q0_65 = 65/100 := by
  rw [q0_65, Rat.mk'_eq_divInt, Rat.divInt_eq_div]; norm_num

lemma q0_6_eq : q0_6 = 6/10 := by
  rw [q0_6, Rat.mk'_eq_divInt, Rat.divInt_eq_div]; norm_num

lemma q0_5_eq : q0_5 = 1/2 := by
  rw [q0_5, Rat.mk'_eq_divInt, Rat.divInt_eq_div]; norm_num

lemma q0_4_eq : q0_4 = 4/10 := by
  rw [q0_4, Rat.mk'_eq_divInt, Rat.divInt_eq_div]; norm_num

lemma q0_3_eq : q0_3 = 3/10 := by
  rw [q0_3, Rat.mk'_eq_divInt, Rat.divInt_eq_div]; norm_num

lemma q0_2_eq : q0_2 = 1/5 := by
  rw [q0_2, Rat.mk'_eq_divInt, Rat.divInt_eq_div]; norm_num

/-- `FeedbackGenerator._setup_reward_criteria`: a Python dict, whose
iteration order is its insertion order (PLATINUM, GOLD, SILVER, BRONZE),
modelled as an association list in that order. -/
def reward_criteria : List (RewardType × RewardCriteria) :=
  [(.platinum, ⟨q0_9, 100, "Exceptional understanding!"⟩),
   (.gold, ⟨q0_8, 75, "Excellent work!"⟩),
   (.silver, ⟨q0_65, 50, "Good effort!"⟩),
   (.bronze, ⟨q0_4, 25, "Keep trying!"⟩)]

/-- The `for reward_type, criteria in self.reward_criteria.items()` loop of
`determine_reward`: first entry whose `min_score` the score meets wins. -/
def rewardLoop (similarity_score : ℚ) :
    List (RewardType × RewardCriteria) → RewardType × ℕ
  | [] => (.bronze, 10)
  | (t, c) :: rest =>
      if c.min_score ≤ similarity_score then (t, c.points)
      else rewardLoop similarity_score rest

/-- `FeedbackGenerator.determine_reward`. -/
def determine_reward (similarity_score : ℚ) : RewardType × ℕ :=
  rewardLoop similarity_score reward_criteria

/-- `determine_reward` unfolded to the ordered threshold cascade. -/
lemma determine_reward_eq (s : ℚ) :
    determine_reward s =
      if 9/10 ≤ s then (RewardType.platinum, 100)
      else if 8/10 ≤ s then (RewardType.gold, 75)
      else if 65/100 ≤ s then (RewardType.silver, 50)
      else if 4/10 ≤ s then (RewardType.bronze, 25)
      else (RewardType.bronze, 10) := by
  simp only [determine_reward, reward_criteria, rewardLoop,
    q0_9_eq, q0_8_eq, q0_65_eq, q0_4_eq]

/-- C1: `determine_reward` returns exactly the first matching entry of the
ordered threshold table, evaluated highest-to-lowest: (platinum, 100) if
s ≥ 0.90, else (gold, 75) if s ≥ 0.80, else (silver, 50) if s ≥ 0.65,
else (bronze, 25) if s ≥ 0.40, else the participation fallback
(bronze, 10). -/
theorem determine_reward_threshold_table (s : ℚ) :
    determine_reward s =
      if 9/10 ≤ s then (RewardType.platinum, 100)
      else if 8/10 ≤ s then (RewardType.gold, 75)
      else if 65/100 ≤ s then (RewardType.silver, 50)
      else if 4/10 ≤ s then (RewardType.bronze, 25)
      else (RewardType.bronze, 10) :=
  determine_reward_eq s

/-- C7: on [0,1] the points awarded by `determine_reward` are monotone in
the score, following the tier order platinum (100) > gold (75) >
silver (50) > bronze-at-or-above-0.4 (25) > default bronze (10). -/
theorem determine_reward_points_monotone (s₁ s₂ : ℚ)
    (h₁ : 0 ≤ s₁) (h₂ : s₁ ≤ 1) (h₃ : 0 ≤ s₂) (h₄ : s₂ ≤ 1)
    (h : s₁ ≤ s₂) :
    (determine_reward s₁).2 ≤ (determine_reward s₂).2 := by
  rw [determine_reward_eq, determine_reward_eq]
  split_ifs <;> (try norm_num) <;> linarith

/-- Witness for C7 at the concrete scores 0.5 ≤ 0.7. -/
theorem determine_reward_points_monotone_witness :
    (0 ≤ (1/2 : ℚ) ∧ (1/2 : ℚ) ≤ 1 ∧ 0 ≤ (7/10 : ℚ) ∧ (7/10 : ℚ) ≤ 1 ∧
      (1/2 : ℚ) ≤ 7/10) ∧
    (determine_reward (1/2)).2 ≤ (determine_reward (7/10)).2 :=
  ⟨by norm_num,
   determine_reward_points_monotone (1/2) (7/10) (by norm_num) (by norm_num)
     (by norm_num) (by norm_num) (by norm_num)⟩

/-- `FeedbackGenerator._load_reference_answers`: the hardcoded reference
corpus, subject → topic → reference sentences, as a nested association
list in source order. -/
def reference_answers : List (String × List (String × List String)) :=
  [("mathematics",
    [("algebra",
      ["To solve linear equations, isolate the variable by performing inverse operations on both sides",
       "The quadratic formula is x = (-b ± √(b²-4ac)) / 2a for equations ax² + bx + c = 0",
       "Functions represent relationships between input and output values"]),
     ("geometry",
      ["The Pythagorean theorem states that a² + b² = c² for right triangles",
       "Area of a circle is π × radius squared",
       "Parallel lines never intersect and have the same slope"])]),
   ("science",
    [("physics",
      ["Newton\x27s first law states that objects in motion stay in motion unless acted upon by force",
       "Energy cannot be created or destroyed, only transformed from one form to another",
       "Force equals mass times acceleration (F = ma)"]),
     ("chemistry",
      ["Atoms consist of protons, neutrons, and electrons",
       "Chemical reactions involve breaking and forming bonds between atoms",
       "The periodic table organizes elements by atomic number"])]),
   ("english",
    [("literature",
      ["Theme is the central message or meaning of a literary work",
       "Character development shows how characters change throughout a story",
       "Symbolism uses objects or actions to represent deeper meanings"]),
     ("grammar",
      ["Subjects perform the action in a sentence while objects receive it",
       "Proper punctuation helps clarify meaning and structure",
       "Active voice makes writing more direct and engaging"])])]

/-- Python `str.lower()` (the corpus keys and subjects are ASCII), acting
characterwise on the string. -/
def pyLower (s : String) : String := ⟨s.data.map Char.toLower⟩

/-- The external collaborators of `analyze_response` — the sentence
transformer plus `sklearn.cosine_similarity` — as a black box.
`sim t ref` is the cosine similarity between the embeddings of the
response text `t` and the reference string `ref`; `fails t refs` records
whether the encode/similarity step raises an exception for these inputs
(the `except` branch of `analyze_response`). -/
structure EmbeddingOracle where
  sim : String → String → ℚ
  fails : String → List String → Bool

/-- `self.reference_answers.get(subject.lower(), {})` inside
`analyze_response`. -/
def subject_refs (r : StudentResponse) : List (String × List String) :=
  (reference_answers.lookup (pyLower r.subject)).getD []

/-- The `all_refs` list built by `analyze_response`: all reference
sentences of every topic under the subject, plus the joined
`expected_keywords` string when the keyword list is non-empty (Python
tests the field for truthiness). -/
def all_refs (r : StudentResponse) : List String :=
  let base := ((subject_refs r).map Prod.snd).flatten
  if r.expected_keywords.isEmpty then base
  else base ++ [String.intercalate " " r.expected_keywords]

/-- Binary maximum on ℚ, written out so that it evaluates by kernel
reduction. -/
def qmax (a b : ℚ) : ℚ := if a ≤ b then b else a

/-- `np.max` over the similarity row (the array is non-empty whenever the
code reaches this point). -/
def npMax (l : List ℚ) : ℚ := l.foldl qmax (l.headD 0)

/-- The ordering used to model `np.argsort(similarities)[-3:][::-1]`:
similarity/reference pairs, larger similarity first.  `np.argsort` uses an
unstable sort, so its tie order is unspecified; insertion sort realizes
one admissible order. -/
def simGe (p q : ℚ × String) : Prop := q.1 ≤ p.1

instance : DecidableRel simGe :=
  fun p q => inferInstanceAs (Decidable (q.1 ≤ p.1))

instance : IsTotal (ℚ × String) simGe := ⟨fun p q => le_total q.1 p.1⟩

instance : IsTrans (ℚ × String) simGe := ⟨fun _ _ _ h₁ h₂ => le_trans h₂ h₁⟩

/-- The happy path of `analyze_response` (source lines 136-147): the
similarity row against every reference, its `np.max`, and the best
matches `np.argsort(similarities)[-3:][::-1]` filtered to the entries
whose similarity exceeds 0.3. -/
def score_and_matches (sim : String → ℚ) (refs : List String) :
    ℚ × List String :=
  let sims := refs.map sim
  let max_similarity := npMax sims
  let sorted := List.insertionSort simGe
    (refs.map (fun ref => (sim ref, ref)))
  let best_matches :=
    ((sorted.take 3).filter (fun p => decide (q0_3 < p.1))).map Prod.snd
  (max_similarity, best_matches)

/-- `FeedbackGenerator.analyze_response`.  The whole body sits in a
`try`/`except` returning `(0.0, [])` on any exception; the subject lookup
and the unknown-subject early return cannot raise, so the only failure
points are the encode/similarity step (modelled by `O.fails`) and
`np.max` on an empty array (the empty-`all_refs` guard). -/
def analyze_response (O : EmbeddingOracle) (r : StudentResponse) :
    ℚ × List String :=
  if (subject_refs r).isEmpty then (q0_5, [])
  else if O.fails r.response_text (all_refs r) then (0, [])
  else if (all_refs r).isEmpty then (0, [])
  else score_and_matches (O.sim r.response_text) (all_refs r)

/-- C4: any failure in the embedding/similarity step (which only runs when
the subject is present in the corpus) is caught and degrades the result of
`analyze_response` to score 0.0 with an empty match list; as a total
function of the oracle and the response, `analyze_response` never raises
to its caller. -/
theorem analyze_response_degrades_on_failure (O : EmbeddingOracle)
    (r : StudentResponse) (hs : ¬(subject_refs r).isEmpty)
    (hf : O.fails r.response_text (all_refs r) = true) :
    analyze_response O r = (0, []) := by
  simp [analyze_response, hs, hf]

/-- Witness for C4: a concrete always-failing oracle on a known subject. -/
theorem analyze_response_degrades_on_failure_witness :
    (¬(subject_refs ⟨"s1", "q1", "some answer", "mathematics", 0, []⟩).isEmpty ∧
      EmbeddingOracle.fails ⟨fun _ _ => 1, fun _ _ => true⟩ "some answer"
        (all_refs ⟨"s1", "q1", "some answer", "mathematics", 0, []⟩) = true) ∧
    analyze_response ⟨fun _ _ => 1, fun _ _ => true⟩
      ⟨"s1", "q1", "some answer", "mathematics", 0, []⟩ = (0, []) :=
  ⟨⟨by decide, rfl⟩,
   analyze_response_degrades_on_failure ⟨fun _ _ => 1, fun _ _ => true⟩
     ⟨"s1", "q1", "some answer", "mathematics", 0, []⟩ (by decide) rfl⟩

/-- C6: when the (lower-cased) subject key is absent from the reference
corpus, `analyze_response` returns exactly the neutral score 0.5 and an
empty match list. -/
theorem analyze_response_unknown_subject (O : EmbeddingOracle)
    (r : StudentResponse)
    (h : reference_answers.lookup (pyLower r.subject) = none) :
    analyze_response O r = (1/2, []) := by
  have hs : (subject_refs r).isEmpty = true := by
    simp [subject_refs, h]
  simp [analyze_response, hs, q0_5_eq]

/-- Witness for C6: the subject "history" is not in the corpus. -/
theorem analyze_response_unknown_subject_witness :
    reference_answers.lookup (pyLower "history") = none ∧
    analyze_response ⟨fun _ _ => 1, fun _ _ => false⟩
      ⟨"s1", "q1", "some answer", "history", 0, []⟩ = (1/2, []) :=
  ⟨by decide,
   analyze_response_unknown_subject ⟨fun _ _ => 1, fun _ _ => false⟩
     ⟨"s1", "q1", "some answer", "history", 0, []⟩ (by decide)⟩

/-- C10: subject lookup is case-insensitive — two subjects with the same
lower-cased form produce identical `analyze_response` results (score and
matches), all other inputs equal. -/
theorem analyze_response_subject_case_insensitive (O : EmbeddingOracle)
    (r : StudentResponse) (s₁ s₂ : String)
    (h : pyLower s₁ = pyLower s₂) :
    analyze_response O { r with subject := s₁ } =
      analyze_response O { r with subject := s₂ } := by
  have h₁ : subject_refs { r with subject := s₁ } =
      subject_refs { r with subject := s₂ } := by
    simp [subject_refs, h]
  have h₂ : all_refs { r with subject := s₁ } =
      all_refs { r with subject := s₂ } := by
    simp [all_refs, h₁]
  simp only [analyze_response, h₁, h₂]

/-- Witness for C10: "Mathematics" and "mathematics" give identical
results for a concrete oracle and response. -/
theorem analyze_response_subject_case_insensitive_witness :
    pyLower "Mathematics" = pyLower "mathematics" ∧
    analyze_response ⟨fun _ _ => q0_4, fun _ _ => false⟩
      ⟨"s1", "q1", "some answer", "Mathematics", 0, []⟩ =
    analyze_response ⟨fun _ _ => q0_4, fun _ _ => false⟩
      ⟨"s1", "q1", "some answer", "mathematics", 0, []⟩ :=
  ⟨by decide,
   analyze_response_subject_case_insensitive ⟨fun _ _ => q0_4, fun _ _ => false⟩
     ⟨"s1", "q1", "some answer", "Mathematics", 0, []⟩ "Mathematics"
     "mathematics" (by decide)⟩

lemma le_qmax_left (a b : ℚ) : a ≤ qmax a b := by
  rw [qmax]
  split
  · assumption
  · exact le_refl a

lemma le_qmax_right (a b : ℚ) : b ≤ qmax a b := by
  rw [qmax]
  split
  · exact le_refl b
  · exact (not_le.mp (by assumption)).le

lemma qmax_eq_or (a b : ℚ) : qmax a b = a ∨ qmax a b = b := by
  rw [qmax]
  split
  · exact Or.inr rfl
  · exact Or.inl rfl

lemma le_foldl_max (l : List ℚ) (a : ℚ) : a ≤ l.foldl qmax a := by
  induction l generalizing a with
  | nil => simp
  | cons b t ih => exact le_trans (le_qmax_left a b) (ih (qmax a b))

lemma mem_le_foldl_max (l : List ℚ) (a x : ℚ) (hx : x ∈ l) :
    x ≤ l.foldl qmax a := by
  induction l generalizing a with
  | nil => cases hx
  | cons b t ih =>
    rcases List.mem_cons.mp hx with rfl | h
    · exact le_trans (le_qmax_right a x) (le_foldl_max t _)
    · exact ih _ h

lemma foldl_max_mem (l : List ℚ) (a : ℚ) :
    l.foldl qmax a = a ∨ l.foldl qmax a ∈ l := by
  induction l generalizing a with
  | nil => exact Or.inl rfl
  | cons b t ih =>
    rcases ih (qmax a b) with h | h
    · rcases qmax_eq_or a b with hm | hm
      · exact Or.inl (by rw [List.foldl_cons, h, hm])
      · refine Or.inr ?_
        rw [List.foldl_cons, h, hm]
        exact List.mem_cons_self b t
    · exact Or.inr (List.mem_cons_of_mem b h)

lemma npMax_is_ub (l : List ℚ) (x : ℚ) (hx : x ∈ l) : x ≤ npMax l :=
  mem_le_foldl_max l _ x hx

lemma npMax_mem (l : List ℚ) (hl : l ≠ []) : npMax l ∈ l := by
  rcases foldl_max_mem l (l.headD 0) with h | h
  · rw [npMax, h]
    cases l with
    | nil => exact absurd rfl hl
    | cons b t => exact List.mem_cons_self b t
  · exact h

lemma score_and_matches_fst_ub (sim : String → ℚ) (refs : List String)
    (m : String) (hm : m ∈ refs) :
    sim m ≤ (score_and_matches sim refs).1 :=
  npMax_is_ub _ _ (List.mem_map_of_mem sim hm)

lemma score_and_matches_fst_attained (sim : String → ℚ) (refs : List String)
    (hne : refs ≠ []) :
    ∃ m ∈ refs, (score_and_matches sim refs).1 = sim m := by
  have hmem : npMax (refs.map sim) ∈ refs.map sim :=
    npMax_mem _ (by simpa using hne)
  rcases List.mem_map.mp hmem with ⟨m, hm, hms⟩
  exact ⟨m, hm, hms.symm⟩

lemma score_and_matches_snd_mem (sim : String → ℚ) (refs : List String)
    (m : String) (hm : m ∈ (score_and_matches sim refs).2) :
    m ∈ refs ∧ q0_3 < sim m := by
  rcases List.mem_map.mp hm with ⟨p, hp, hpm⟩
  have hfil := List.mem_filter.mp hp
  have hin : p ∈ List.insertionSort simGe
      (refs.map (fun ref => (sim ref, ref))) :=
    List.mem_of_mem_take hfil.1
  have hpairs : p ∈ refs.map (fun ref => (sim ref, ref)) := by
    rwa [List.mem_insertionSort] at hin
  rcases List.mem_map.mp hpairs with ⟨ref, href, hrefp⟩
  have h1 : p.1 = sim ref := by rw [← hrefp]
  have h2 : p.2 = ref := by rw [← hrefp]
  have hgt : q0_3 < p.1 := by simpa using hfil.2
  subst hpm
  rw [h2]
  exact ⟨href, by rwa [← h1]⟩

lemma score_and_matches_snd_len (sim : String → ℚ) (refs : List String) :
    (score_and_matches sim refs).2.length ≤ 3 := by
  simp only [score_and_matches, List.length_map]
  refine le_trans (List.length_filter_le _ _) ?_
  simp [List.length_take]

lemma score_and_matches_snd_sorted (sim : String → ℚ) (refs : List String) :
    (score_and_matches sim refs).2.Pairwise (fun a b => sim b ≤ sim a) := by
  set pairs := refs.map (fun ref => (sim ref, ref)) with hpairs
  have hsorted : (List.insertionSort simGe pairs).Pairwise simGe :=
    List.sorted_insertionSort simGe pairs
  have htake : ((List.insertionSort simGe pairs).take 3).Pairwise simGe :=
    hsorted.sublist (List.take_sublist 3 _)
  have hfilter : (((List.insertionSort simGe pairs).take 3).filter
      (fun p => decide (q0_3 < p.1))).Pairwise simGe :=
    htake.sublist (List.filter_sublist _)
  refine List.pairwise_map.mpr (hfilter.imp_of_mem ?_)
  intro p q hp hq hpq
  have hpmem : p ∈ pairs := by
    have : p ∈ List.insertionSort simGe pairs :=
      List.mem_of_mem_take (List.mem_filter.mp hp).1
    rwa [List.mem_insertionSort] at this
  have hqmem : q ∈ pairs := by
    have : q ∈ List.insertionSort simGe pairs :=
      List.mem_of_mem_take (List.mem_filter.mp hq).1
    rwa [List.mem_insertionSort] at this
  rcases List.mem_map.mp hpmem with ⟨a, _, ha⟩
  rcases List.mem_map.mp hqmem with ⟨b, _, hb⟩
  have hp1 : p.1 = sim p.2 := by rw [← ha]
  have hq1 : q.1 = sim q.2 := by rw [← hb]
  rw [← hp1, ← hq1]
  exact hpq

lemma lookup_mem_snd {α β : Type} [BEq α] :
    ∀ (l : List (α × β)) (k : α) (v : β), l.lookup k = some v →
      v ∈ l.map Prod.snd
  | [], _, _, h => by cases h
  | (a, b) :: t, k, v, h => by
    rw [List.lookup] at h
    cases hk : k == a with
    | true =>
        rw [hk] at h
        exact List.mem_cons.mpr (Or.inl (Option.some.inj h).symm)
    | false =>
        rw [hk] at h
        exact List.mem_cons.mpr (Or.inr (lookup_mem_snd t k v h))

lemma lookup_subject_cases (r : StudentResponse)
    (v : List (String × List String))
    (h : reference_answers.lookup (pyLower r.subject) = some v) :
    (v.map Prod.snd).flatten ≠ [] := by
  have hmem := lookup_mem_snd reference_answers (pyLower r.subject) v h
  simp only [reference_answers, List.map_cons, List.map_nil,
    List.mem_cons, List.not_mem_nil, or_false] at hmem
  rcases hmem with rfl | rfl | rfl <;> decide

lemma all_refs_isEmpty_false (r : StudentResponse)
    (hs : ¬(subject_refs r).isEmpty) : (all_refs r).isEmpty = false := by
  have hbase : ((subject_refs r).map Prod.snd).flatten ≠ [] := by
    rcases h : reference_answers.lookup (pyLower r.subject) with _ | v
    · exact absurd (by simp [subject_refs, h]) hs
    · have := lookup_subject_cases r v h
      simpa [subject_refs, h] using this
  rw [all_refs]
  by_cases hk : r.expected_keywords.isEmpty <;> simp [hk, hbase]

/-- C5: for a response whose subject is present in the corpus (and with
the external step succeeding), `analyze_response` returns the maximum
similarity over all reference strings together with a list of at most 3
reference strings, each with similarity strictly greater than 0.3,
ordered descending by similarity. -/
theorem analyze_response_max_and_top_matches (O : EmbeddingOracle)
    (r : StudentResponse) (hs : ¬(subject_refs r).isEmpty)
    (hf : O.fails r.response_text (all_refs r) = false) :
    (∀ m ∈ all_refs r, O.sim r.response_text m ≤ (analyze_response O r).1) ∧
    (∃ m ∈ all_refs r, (analyze_response O r).1 = O.sim r.response_text m) ∧
    (analyze_response O r).2.length ≤ 3 ∧
    (∀ m ∈ (analyze_response O r).2,
      m ∈ all_refs r ∧ 3/10 < O.sim r.response_text m) ∧
    (analyze_response O r).2.Pairwise
      (fun a b => O.sim r.response_text b ≤ O.sim r.response_text a) := by
  have hre : (all_refs r).isEmpty = false := all_refs_isEmpty_false r hs
  have hne : all_refs r ≠ [] := by
    intro hcon
    rw [hcon] at hre
    simp at hre
  have heq : analyze_response O r =
      score_and_matches (O.sim r.response_text) (all_refs r) := by
    simp [analyze_response, hs, hf, hre]
  rw [heq]
  refine ⟨fun m hm => score_and_matches_fst_ub _ _ m hm,
    score_and_matches_fst_attained _ _ hne,
    score_and_matches_snd_len _ _,
    fun m hm => ?_,
    score_and_matches_snd_sorted _ _⟩
  have hmem := score_and_matches_snd_mem _ _ m hm
  rwa [q0_3_eq] at hmem

/-- Witness for C5 on a concrete oracle and mathematics response. -/
theorem analyze_response_max_and_top_matches_witness :
    (¬(subject_refs ⟨"s1", "q1", "some answer", "mathematics", 0, []⟩).isEmpty ∧
      EmbeddingOracle.fails ⟨fun _ _ => q0_4, fun _ _ => false⟩ "some answer"
        (all_refs ⟨"s1", "q1", "some answer", "mathematics", 0, []⟩) = false) ∧
    (∀ m ∈ all_refs ⟨"s1", "q1", "some answer", "mathematics", 0, []⟩,
      EmbeddingOracle.sim ⟨fun _ _ => q0_4, fun _ _ => false⟩ "some answer" m ≤
        (analyze_response ⟨fun _ _ => q0_4, fun _ _ => false⟩
          ⟨"s1", "q1", "some answer", "mathematics", 0, []⟩).1) ∧
    (∃ m ∈ all_refs ⟨"s1", "q1", "some answer", "mathematics", 0, []⟩,
      (analyze_response ⟨fun _ _ => q0_4, fun _ _ => false⟩
          ⟨"s1", "q1", "some answer", "mathematics", 0, []⟩).1 =
        EmbeddingOracle.sim ⟨fun _ _ => q0_4, fun _ _ => false⟩ "some answer" m) ∧
    (analyze_response ⟨fun _ _ => q0_4, fun _ _ => false⟩
        ⟨"s1", "q1", "some answer", "mathematics", 0, []⟩).2.length ≤ 3 ∧
    (∀ m ∈ (analyze_response ⟨fun _ _ => q0_4, fun _ _ => false⟩
        ⟨"s1", "q1", "some answer", "mathematics", 0, []⟩).2,
      m ∈ all_refs ⟨"s1", "q1", "some answer", "mathematics", 0, []⟩ ∧
        3/10 < EmbeddingOracle.sim ⟨fun _ _ => q0_4, fun _ _ => false⟩
          "some answer" m) ∧
    (analyze_response ⟨fun _ _ => q0_4, fun _ _ => false⟩
        ⟨"s1", "q1", "some answer", "mathematics", 0, []⟩).2.Pairwise
      (fun a b =>
        EmbeddingOracle.sim ⟨fun _ _ => q0_4, fun _ _ => false⟩ "some answer" b ≤
          EmbeddingOracle.sim ⟨fun _ _ => q0_4, fun _ _ => false⟩ "some answer" a) :=
  ⟨⟨by decide, rfl⟩,
   analyze_response_max_and_top_matches ⟨fun _ _ => q0_4, fun _ _ => false⟩
     ⟨"s1", "q1", "some answer", "mathematics", 0, []⟩ (by decide) rfl⟩

/-- The dict returned by `generate_personalized_feedback`. -/
structure FeedbackData where
  feedback_text : String
  strengths : List String
  improvement_areas : List String
  tips : List String
  reward_type : RewardType
  points : ℕ
deriving DecidableEq, Repr

/-- `self.reward_criteria[reward_type]["description"]`. -/
def rewardDescription (t : RewardType) : String :=
  match reward_criteria.lookup t with
  | some c => c.description
  | none => ""

/-- `FeedbackGenerator.generate_personalized_feedback`.  The student
response and best-match list are accepted but the bands depend only on
the similarity score, exactly as in the source. -/
def generate_personalized_feedback (_student_response : StudentResponse)
    (similarity_score : ℚ) (_best_matches : List String) : FeedbackData :=
  let bands :=
    if q0_8 ≤ similarity_score then
      (["Demonstrates strong understanding of key concepts",
        "Uses appropriate terminology",
        "Provides clear explanations"],
       ([] : List String),
       ["Try to add more examples to strengthen your explanations",
        "Consider exploring advanced applications of these concepts"])
    else if q0_6 ≤ similarity_score then
      (["Shows good grasp of basic concepts",
        "Attempts to explain reasoning"],
       ["Could use more specific terminology",
        "Explanations could be more detailed"],
       ["Review key vocabulary for this topic",
        "Practice explaining concepts in your own words",
        "Try to include specific examples"])
    else
      (["Shows effort in attempting the question"],
       ["Needs to review fundamental concepts",
        "Requires more specific and detailed responses"],
       ["Review the lesson materials again",
        "Ask your teacher for clarification on confusing topics",
        "Practice with similar problems",
        "Try to break down complex problems into smaller steps"])
  let rp := determine_reward similarity_score
  let feedback_text := rewardDescription rp.1 ++ " " ++
    (if q0_8 ≤ similarity_score then
      "You\x27ve shown excellent understanding of this topic. Your response demonstrates clear thinking and good use of relevant concepts."
    else if q0_6 ≤ similarity_score then
      "You\x27re on the right track! Your response shows good understanding, with room for more detail and precision."
    else
      "Keep working on this topic. Review the key concepts and try to be more specific in your explanations.")
  { feedback_text := feedback_text
    strengths := bands.1
    improvement_areas := bands.2.1
    tips := bands.2.2
    reward_type := rp.1
    points := rp.2 }

/-- The generator's mutable state: the append-only history store and
alert list (`self.feedback_history`, `self.educator_alerts`). -/
structure SysState where
  feedback_history : List Feedback
  educator_alerts : List EducatorAlert
deriving DecidableEq, Repr

/-- The state right after `FeedbackGenerator.__init__`. -/
def initState : SysState := ⟨[], []⟩

/-- `self.feedback_history[-n:]` — the last `n` entries of the whole
(global) history list. -/
def lastN (n : ℕ) (l : List Feedback) : List Feedback :=
  l.drop (l.length - n)

/-- `FeedbackGenerator._check_for_educator_alerts`: a high-severity
`low_performance` alert when the just-recorded score is below 0.3, and a
medium-severity `consistent_struggle` alert when among the last 5 global
history entries at least 3 belong to this student and all of the
student's entries there score below 0.5.  Alerts are pure appends, no
deduplication. -/
def check_for_educator_alerts (st : SysState) (r : StudentResponse)
    (similarity_score : ℚ) (now : Int) : SysState :=
  let alerts₁ : List EducatorAlert :=
    if similarity_score < q0_3 then
      [{ alert_id := "alert_" ++ toString now
         student_id := r.student_id
         alert_type := "low_performance"
         severity := "high"
         description := "Student showing very low understanding in " ++ r.subject
         timestamp := now
         action_required := true }]
    else []
  let recent_scores :=
    ((lastN 5 st.feedback_history).filter
      (fun f => f.student_id == r.student_id)).map Feedback.similarity_score
  let alerts₂ : List EducatorAlert :=
    if 3 ≤ recent_scores.length ∧ ∀ s ∈ recent_scores, s < q0_5 then
      [{ alert_id := "alert_" ++ toString now ++ "_pattern"
         student_id := r.student_id
         alert_type := "consistent_struggle"
         severity := "medium"
         description := "Student showing consistent difficulties across multiple responses"
         timestamp := now
         action_required := true }]
    else []
  { st with educator_alerts := st.educator_alerts ++ (alerts₁ ++ alerts₂) }

/-- `FeedbackGenerator.generate_feedback`: analyze, compose, append the
`Feedback` record to the history, then run the alert rules on the updated
history.  `now` abstracts `datetime.datetime.now()`. -/
def generate_feedback (O : EmbeddingOracle) (st : SysState)
    (r : StudentResponse) (now : Int) : SysState × Feedback :=
  let res := analyze_response O r
  let fd := generate_personalized_feedback r res.1 res.2
  let fb : Feedback :=
    { response_id := "resp_" ++ toString now
      student_id := r.student_id
      similarity_score := res.1
      reward_type := fd.reward_type
      feedback_text := fd.feedback_text
      strengths := fd.strengths
      improvement_areas := fd.improvement_areas
      personalized_tips := fd.tips
      points_earned := fd.points
      timestamp := now }
  let st₁ : SysState := { st with feedback_history := st.feedback_history ++ [fb] }
  (check_for_educator_alerts st₁ r res.1 now, fb)

/-- A scripted sequence of `generate_feedback` calls against one
generator instance. -/
def runScript (O : EmbeddingOracle) (st : SysState) :
    List (StudentResponse × Int) → SysState
  | [] => st
  | (r, t) :: rest => runScript O (generate_feedback O st r t).1 rest

/-- `np.mean` (the callers guard against empty lists; on `[]` this yields
the junk value `0/0 = 0` where numpy would produce a NaN warning). -/
def npMean (l : List ℚ) : ℚ := l.sum / l.length

/-- The progress dict of `get_student_progress`. -/
structure ProgressReport where
  student_id : String
  total_responses : ℕ
  average_score : ℚ
  latest_score : ℚ
  total_points : ℕ
  reward_distribution : List (String × ℕ)
  recent_improvement : ℚ
  last_updated : Int
deriving DecidableEq, Repr

/-- `get_student_progress` returns either the explicit error dict
`{"error": ...}` or a progress report. -/
inductive ProgressResult where
  | error (msg : String)
  | report (p : ProgressReport)
deriving DecidableEq, Repr

/-- `FeedbackGenerator.get_student_progress`. -/
def get_student_progress (st : SysState) (student_id : String) :
    ProgressResult :=
  let student_feedback :=
    st.feedback_history.filter (fun f => f.student_id == student_id)
  if student_feedback.isEmpty then
    .error "No feedback found for this student"
  else
    let scores := student_feedback.map Feedback.similarity_score
    .report
      { student_id := student_id
        total_responses := student_feedback.length
        average_score := npMean scores
        latest_score := scores.getLastD 0
        total_points := (student_feedback.map Feedback.points_earned).sum
        reward_distribution :=
          [RewardType.bronze, .silver, .gold, .platinum].map
            (fun t => (t.value,
              (student_feedback.filter (fun f => f.reward_type == t)).length))
        recent_improvement :=
          if 1 < scores.length then scores.getLastD 0 - scores.headD 0 else 0
        last_updated := ((student_feedback.getLast?).map Feedback.timestamp).getD 0 }

/-- The `class_overview` sub-dict of the educator dashboard. -/
structure ClassOverview where
  total_students : ℕ
  total_responses : ℕ
  class_average_score : ℚ
  students_needing_attention : ℕ
deriving DecidableEq, Repr

/-- The dict returned by `get_educator_dashboard`. -/
structure Dashboard where
  class_overview : ClassOverview
  recent_alerts : List EducatorAlert
  struggling_students : List String
  last_updated : Int
deriving DecidableEq, Repr

/-- `FeedbackGenerator.get_educator_dashboard`.  `list(set(...))` has
arbitrary iteration order in Python; `dedup` realizes one admissible
order, and the `class_overview` counts are order-independent.  `now`
abstracts `datetime.datetime.now()`; timestamps count days, so the
recent-alert window is `now - 7`. -/
def get_educator_dashboard (st : SysState) (now : Int) : Dashboard :=
  let all_students := (st.feedback_history.map Feedback.student_id).dedup
  let all_scores := st.feedback_history.map Feedback.similarity_score
  let class_average := if all_scores.isEmpty then 0 else npMean all_scores
  let struggling_students := all_students.filter (fun sid =>
    let recent_scores :=
      ((lastN 3 st.feedback_history).filter
        (fun f => f.student_id == sid)).map Feedback.similarity_score
    !recent_scores.isEmpty && decide (npMean recent_scores < q0_4))
  { class_overview :=
      { total_students := all_students.length
        total_responses := st.feedback_history.length
        class_average_score := class_average
        students_needing_attention := struggling_students.length }
    recent_alerts :=
      st.educator_alerts.filter (fun a => decide (now - 7 < a.timestamp))
    struggling_students := struggling_students
    last_updated := now }

/-- C8: for a student with zero records in the history store,
`get_student_progress` returns the explicit error-flag result (and, being
a total function, does not raise). -/
theorem get_student_progress_no_data (st : SysState) (student_id : String)
    (h : st.feedback_history.filter (fun f => f.student_id == student_id) = []) :
    get_student_progress st student_id =
      .error "No feedback found for this student" := by
  simp [get_student_progress, h]

/-- Witness for C8: the lookup before any record has been made. -/
theorem get_student_progress_no_data_witness :
    initState.feedback_history.filter (fun f => f.student_id == "student_001") = [] ∧
    get_student_progress initState "student_001" =
      .error "No feedback found for this student" :=
  ⟨rfl, get_student_progress_no_data initState "student_001" rfl⟩

/-- C9: the `class_overview` values of the educator dashboard depend only
on the history store, so two calls with no intervening record operation —
even at different wall-clock times — return identical values. -/
theorem get_educator_dashboard_idempotent (st : SysState) (t₁ t₂ : Int) :
    (get_educator_dashboard st t₁).class_overview =
      (get_educator_dashboard st t₂).class_overview := rfl

/-- The scripted C3 scenario: one student, subject mathematics, oracle
similarity 0.2 everywhere, no failures. -/
def oracleC3 : EmbeddingOracle := ⟨fun _ _ => q0_2, fun _ _ => false⟩

def respC3 : StudentResponse :=
  ⟨"s1", "q1", "a short answer", "mathematics", 0, []⟩

def scriptC3 : List (StudentResponse × Int) :=
  [(respC3, 1), (respC3, 2), (respC3, 3), (respC3, 4), (respC3, 5)]

/-- Number of alerts of a given type in the state. -/
def alertCount (st : SysState) (ty : String) : ℕ :=
  (st.educator_alerts.filter (fun a => a.alert_type == ty)).length

/-- C3 counterexample: on the scripted 5-record sequence (same student,
every score 0.2) the code emits three `consistent_struggle` alerts — one
per record from the 3rd onward — not exactly one. -/
theorem scripted_run_struggle_alert_not_unique :
    alertCount (runScript oracleC3 initState scriptC3) "consistent_struggle" = 3 ∧
    ¬ alertCount (runScript oracleC3 initState scriptC3) "consistent_struggle" = 1 := by
  decide

/-- C3 amended: the scripted 5-record sequence yields exactly one
`low_performance` alert per record (5 in total) plus one
`consistent_struggle` alert per record from the 3rd qualifying record
onward (3 in total), the first of them emitted once the 3rd record
lands. -/
theorem scripted_run_alert_counts :
    alertCount (runScript oracleC3 initState scriptC3) "low_performance" = 5 ∧
    alertCount (runScript oracleC3 initState scriptC3) "consistent_struggle" = 3 ∧
    alertCount (runScript oracleC3 initState (scriptC3.take 2)) "consistent_struggle" = 0 ∧
    alertCount (runScript oracleC3 initState (scriptC3.take 3)) "consistent_struggle" = 1 := by
  decide

/-- Dot product of two embedding vectors (trailing entries beyond the
shorter vector are ignored; the provider returns fixed-dimension
vectors). -/
def dotp : List ℚ → List ℚ → ℚ
  | a :: u, b :: v => a * b + dotp u v
  | _, _ => 0

/-- Squared Euclidean norm of an embedding vector. -/
def normSq (u : List ℚ) : ℚ := dotp u u

/-- The mathematical cosine similarity computed by
`sklearn.metrics.pairwise.cosine_similarity` on two embedding vectors
(real division by zero is zero, matching the [-1,1] range convention). -/
noncomputable def cosineSim (u v : List ℚ) : ℝ :=
  ((dotp u v : ℚ) : ℝ) /
    (Real.sqrt ((normSq u : ℚ) : ℝ) * Real.sqrt ((normSq v : ℚ) : ℝ))

lemma normSq_nonneg : ∀ u : List ℚ, 0 ≤ normSq u
  | [] => le_refl 0
  | a :: t => by
      have ht : (0:ℚ) ≤ dotp t t := normSq_nonneg t
      show (0:ℚ) ≤ a * a + dotp t t
      nlinarith [mul_self_nonneg a]

lemma dotp_sq_le : ∀ u v : List ℚ, (dotp u v)^2 ≤ normSq u * normSq v
  | [], v => by
      simp [dotp, normSq]
  | a :: t, [] => by
      show ((0:ℚ))^2 ≤ normSq (a :: t) * normSq []
      have h1 := normSq_nonneg (a :: t)
      have h0 : normSq ([] : List ℚ) = 0 := rfl
      rw [h0, mul_zero]
      norm_num
  | a :: t, b :: w => by
      have ih : (dotp t w)^2 ≤ dotp t t * dotp w w := dotp_sq_le t w
      have h1 : (0:ℚ) ≤ dotp t t := normSq_nonneg t
      have h2 : (0:ℚ) ≤ dotp w w := normSq_nonneg w
      show (a * b + dotp t w)^2 ≤ (a * a + dotp t t) * (b * b + dotp w w)
      rcases eq_or_lt_of_le h2 with h0 | hpos
      · have hd2 : (dotp t w)^2 ≤ 0 := by nlinarith
        have hd : dotp t w = 0 :=
          (pow_eq_zero_iff (by norm_num)).mp
            (le_antisymm hd2 (sq_nonneg (dotp t w)))
        rw [hd]
        nlinarith [mul_nonneg h1 (mul_self_nonneg b)]
      · nlinarith [sq_nonneg (a * dotp w w - b * dotp t w),
          mul_nonneg (add_nonneg (mul_self_nonneg b) h2)
            (sub_nonneg.mpr ih)]

/-- Cosine similarity of arbitrary embedding vectors always lies in
[-1,1] (Cauchy-Schwarz). -/
lemma cosineSim_bounds (u v : List ℚ) :
    -1 ≤ cosineSim u v ∧ cosineSim u v ≤ 1 := by
  rw [cosineSim]
  have hu : (0:ℝ) ≤ ((normSq u : ℚ) : ℝ) := by
    exact_mod_cast normSq_nonneg u
  have hDnn : 0 ≤ Real.sqrt ((normSq u : ℚ) : ℝ) *
      Real.sqrt ((normSq v : ℚ) : ℝ) :=
    mul_nonneg (Real.sqrt_nonneg _) (Real.sqrt_nonneg _)
  rcases eq_or_lt_of_le hDnn with h0 | hpos
  · rw [← h0, div_zero]
    norm_num
  · have hcs : (((dotp u v : ℚ) : ℝ))^2 ≤
        ((normSq u : ℚ) : ℝ) * ((normSq v : ℚ) : ℝ) := by
      exact_mod_cast dotp_sq_le u v
    have habs : |((dotp u v : ℚ) : ℝ)| ≤
        Real.sqrt ((normSq u : ℚ) : ℝ) * Real.sqrt ((normSq v : ℚ) : ℝ) := by
      rw [← Real.sqrt_sq_eq_abs, ← Real.sqrt_mul hu]
      exact Real.sqrt_le_sqrt hcs
    have habsdiv : |((dotp u v : ℚ) : ℝ) /
        (Real.sqrt ((normSq u : ℚ) : ℝ) * Real.sqrt ((normSq v : ℚ) : ℝ))| ≤ 1 := by
      rw [abs_div, abs_of_pos hpos, div_le_one hpos]
      exact habs
    exact abs_le.mp habsdiv

/-- The score produced by `analyze_response` is either the 0.5 default,
the 0.0 failure value, or one of the oracle's similarity values. -/
lemma analyze_response_fst_cases (O : EmbeddingOracle) (r : StudentResponse) :
    (analyze_response O r).1 = q0_5 ∨ (analyze_response O r).1 = 0 ∨
    ∃ m ∈ all_refs r, (analyze_response O r).1 = O.sim r.response_text m := by
  rw [analyze_response]
  split_ifs with h1 h2 h3
  · exact Or.inl rfl
  · exact Or.inr (Or.inl rfl)
  · exact Or.inr (Or.inl rfl)
  · refine Or.inr (Or.inr ?_)
    have hne : all_refs r ≠ [] := by
      simpa [List.isEmpty_iff] using h3
    exact score_and_matches_fst_attained _ _ hne

lemma generate_feedback_history (O : EmbeddingOracle) (st : SysState)
    (r : StudentResponse) (now : Int) :
    (generate_feedback O st r now).1.feedback_history =
      st.feedback_history ++ [(generate_feedback O st r now).2] := rfl

lemma generate_feedback_score (O : EmbeddingOracle) (st : SysState)
    (r : StudentResponse) (now : Int) :
    (generate_feedback O st r now).2.similarity_score =
      (analyze_response O r).1 := rfl

lemma runScript_score_invariant (O : EmbeddingOracle)
    (hO : ∀ t ref, -1 ≤ O.sim t ref ∧ O.sim t ref ≤ 1) :
    ∀ (script : List (StudentResponse × Int)) (st : SysState),
      (∀ fb ∈ st.feedback_history,
        -1 ≤ fb.similarity_score ∧ fb.similarity_score ≤ 1) →
      ∀ fb ∈ (runScript O st script).feedback_history,
        -1 ≤ fb.similarity_score ∧ fb.similarity_score ≤ 1
  | [], _, hst => hst
  | (r, t) :: rest, st, hst => by
      refine runScript_score_invariant O hO rest _ ?_
      intro fb hfb
      rw [generate_feedback_history] at hfb
      rcases List.mem_append.mp hfb with h | h
      · exact hst fb h
      · have hfbeq : fb = (generate_feedback O st r t).2 := by simpa using h
        subst hfbeq
        rw [generate_feedback_score]
        rcases analyze_response_fst_cases O r with h5 | h0 | ⟨m, _, hm⟩
        · rw [h5, q0_5_eq]
          norm_num
        · rw [h0]
          norm_num
        · rw [hm]
          exact hO _ _

/-- C2 (amended): mathematical cosine similarity always lies in [-1,1]
(not [0,1]); consequently, for every oracle whose similarity values lie
in [-1,1] and every scripted run, every `Feedback` record ever appended
to the history store has `similarity_score` in [-1,1] — the 0.5
unknown-subject default and the 0.0 failure default included. -/
theorem feedback_history_scores_in_unit_interval :
    (∀ u v : List ℚ, -1 ≤ cosineSim u v ∧ cosineSim u v ≤ 1) ∧
    ∀ (O : EmbeddingOracle),
      (∀ t ref, -1 ≤ O.sim t ref ∧ O.sim t ref ≤ 1) →
      ∀ (script : List (StudentResponse × Int)),
        ∀ fb ∈ (runScript O initState script).feedback_history,
          -1 ≤ fb.similarity_score ∧ fb.similarity_score ≤ 1 :=
  ⟨cosineSim_bounds,
   fun O hO script =>
     runScript_score_invariant O hO script initState (by simp [initState])⟩

/-- Witness for C2 (amended) on a concrete oracle and one-record run. -/
theorem feedback_history_scores_in_unit_interval_witness :
    (∀ t ref, -1 ≤ EmbeddingOracle.sim ⟨fun _ _ => q0_4, fun _ _ => true⟩ t ref ∧
      EmbeddingOracle.sim ⟨fun _ _ => q0_4, fun _ _ => true⟩ t ref ≤ 1) ∧
    (-1 ≤ (generate_feedback ⟨fun _ _ => q0_4, fun _ _ => true⟩ initState
        ⟨"s1", "q1", "some answer", "mathematics", 0, []⟩ 1).2.similarity_score ∧
      (generate_feedback ⟨fun _ _ => q0_4, fun _ _ => true⟩ initState
        ⟨"s1", "q1", "some answer", "mathematics", 0, []⟩ 1).2.similarity_score ≤ 1) := by
  have hq : (-1 : ℚ) ≤ q0_4 ∧ q0_4 ≤ 1 := by decide
  have hO : ∀ t ref,
      -1 ≤ EmbeddingOracle.sim ⟨fun _ _ => q0_4, fun _ _ => true⟩ t ref ∧
        EmbeddingOracle.sim ⟨fun _ _ => q0_4, fun _ _ => true⟩ t ref ≤ 1 :=
    fun _ _ => hq
  refine ⟨hO, ?_⟩
  refine feedback_history_scores_in_unit_interval.2
    ⟨fun _ _ => q0_4, fun _ _ => true⟩ hO
    [(⟨"s1", "q1", "some answer", "mathematics", 0, []⟩, 1)] _ ?_
  show _ ∈ (generate_feedback ⟨fun _ _ => q0_4, fun _ _ => true⟩ initState
    ⟨"s1", "q1", "some answer", "mathematics", 0, []⟩ 1).1.feedback_history
  rw [generate_feedback_history]
  exact List.mem_append_right _ (List.mem_singleton_self _)

/-- C2 counterexample: -1 is a genuine cosine-similarity value (opposite
vectors), and with an oracle returning it the code appends a `Feedback`
record whose `similarity_score` is -1, outside [0,1] — `analyze_response`
does not clamp negative cosine similarities. -/
theorem feedback_score_outside_unit_interval :
    cosineSim [1] [-1] = -1 ∧
    ((runScript ⟨fun _ _ => -1, fun _ _ => false⟩ initState
        [(⟨"s1", "q1", "some answer", "mathematics", 0, []⟩, 1)]).feedback_history.map
      Feedback.similarity_score) = [-1] ∧
    ¬ (0 : ℚ) ≤ -1 := by
  refine ⟨?_, by decide, by decide⟩
  have h1 : dotp [(1 : ℚ)] [(-1 : ℚ)] = -1 := by norm_num [dotp]
  have h2 : normSq [(1 : ℚ)] = 1 := by norm_num [normSq, dotp]
  have h3 : normSq [(-1 : ℚ)] = 1 := by norm_num [normSq, dotp]
  rw [cosineSim, h1, h2, h3]
  norm_num

end FeedbackSystem
